import Mathlib

/-!
# Verification of the api-starter authentication and authorization core

Shallow embedding of the user-management API's auth/authz logic:
the user store, the RBAC guard (`requireRole`), the user CRUD route
handlers, the OAuth callback reconciliation, the GitHub identity
normalizer, and JWT issuance/verification, together with theorems
checking the specification's claims against these definitions.

Conventions of the embedding:
* Database rows are `StoredUser` records; the user store is a list of rows.
* Nullable columns are `Option` values (`none` = SQL `NULL` / JS `null`).
* JavaScript string truthiness (`!x` is true for `null`/`undefined`/`""`)
  is `strTruthy`; `a || b` on strings is `jsOr`.
* Route handlers are pure functions from (store, authenticated principal,
  request data) to a `Reply` and the resulting store.
-/

namespace ApiStarter

/-- The `role` enum of the User model: `'user' | 'admin'`. -/
inductive Role where
  | user
  | admin
deriving DecidableEq, Repr

/-- String name of a role, as used in error messages. -/
def Role.name : Role → String
  | .user => "user"
  | .admin => "admin"

/-- A persisted User row (the columns the auth core reads and writes).
`createdAt` is an abstract timestamp used only for list ordering. -/
structure StoredUser where
  id : Nat
  name : String
  email : String
  role : Role
  oauthProvider : Option String := none
  oauthId : Option String := none
  oauthAccessToken : Option String := none
  oauthRefreshToken : Option String := none
  oauthTokenExpiresAt : Option Nat := none
  createdAt : Nat := 0
deriving DecidableEq, Repr

/-- The user store: the set of persisted rows, as a list. -/
abbrev UserStore := List StoredUser

/-- `User.findByPk(id)`: first row with the given primary key. -/
def findByPk (store : UserStore) (id : Nat) : Option StoredUser :=
  store.find? (fun u => u.id == id)

/-- `User.findOne({where: {email}})`: first row with the given email. -/
def findByEmail (store : UserStore) (email : String) : Option StoredUser :=
  store.find? (fun u => u.email == email)

/-- Fresh autoincrement primary key for `User.create`. -/
def freshId (store : UserStore) : Nat :=
  store.foldr (fun u m => max u.id m) 0 + 1

/-- The request-scoped principal attached by the `authenticate` decorator:
`{userId, id, email, role}` where `id` aliases `userId`. -/
structure Principal where
  userId : Nat
  id : Nat
  email : String
  role : Role
deriving DecidableEq, Repr

/-- An HTTP reply: success with a body, or an error `{error, statusCode}`. -/
inductive Reply (α : Type) where
  | ok (statusCode : Nat) (body : α)
  | err (statusCode : Nat) (error : String)
deriving DecidableEq, Repr

/-- JavaScript truthiness of a nullable string: `null`/`undefined` and the
empty string are falsy. -/
def strTruthy : Option String → Bool
  | none => false
  | some s => !(s == "")

/-- JavaScript `a || b` on nullable strings. -/
def jsOr (a b : Option String) : Option String :=
  if strTruthy a then a else b

/-- JavaScript `n || d` on a nullable number: `undefined` and `0` are falsy. -/
def jsNumOr (n : Option Nat) (d : Nat) : Nat :=
  match n with
  | none => d
  | some k => if k = 0 then d else k

/-! ## User CRUD route handlers (`userRoutes`, RBAC version) -/

/-- Body of `POST /api/users`: `{name, email, role?}`. -/
structure CreateUserBody where
  name : String
  email : String
  role : Option Role := none
deriving DecidableEq, Repr

/-- Body of `PUT /api/users/:id`: `{name?, email?}`. -/
structure UpdateUserBody where
  name : Option String := none
  email : Option String := none
deriving DecidableEq, Repr

/-- `POST /api/users` handler. A non-admin requester asking for an admin
role is rejected with 403; otherwise the role defaults to `user` unless
the requester is an admin who explicitly supplied one. -/
def createUser (store : UserStore) (requester : Principal) (body : CreateUserBody) :
    Reply StoredUser × UserStore :=
  if body.role = some Role.admin ∧ requester.role ≠ Role.admin then
    (.err 403 "Insufficient permissions to create admin users", store)
  else
    let userRole := match body.role with
      | some r => if requester.role = Role.admin then r else Role.user
      | none => Role.user
    let u : StoredUser := { id := freshId store, name := body.name,
                            email := body.email, role := userRole }
    (.ok 201 u, store ++ [u])

/-- `PUT /api/users/:id` handler: self-or-admin, then a single
`User.update` whose affected count decides 404. -/
def updateUser (store : UserStore) (requester : Principal) (id : Nat)
    (body : UpdateUserBody) : Reply StoredUser × UserStore :=
  if requester.id ≠ id ∧ requester.role ≠ Role.admin then
    (.err 403 "Insufficient permissions to update this user", store)
  else
    match findByPk store id with
    | none => (.err 404 "User not found", store)
    | some u =>
        let u' := { u with name := body.name.getD u.name,
                           email := body.email.getD u.email }
        (.ok 200 u', store.map (fun v => if v.id = id then u' else v))

/-- `DELETE /api/users/:id` handler: self-or-admin, then `User.destroy`
whose deleted count decides 404. -/
def deleteUser (store : UserStore) (requester : Principal) (id : Nat) :
    Reply Unit × UserStore :=
  if requester.id ≠ id ∧ requester.role ≠ Role.admin then
    (.err 403 "Insufficient permissions to delete this user", store)
  else
    let deletedCount := (store.filter (fun u => u.id == id)).length
    if deletedCount = 0 then (.err 404 "User not found", store)
    else (.ok 204 (), store.filter (fun u => u.id != id))

/-- `GET /api/users` handler: all rows, newest first; the requester is
only checked for authentication, never consulted. -/
def getAllUsers (store : UserStore) (_requester : Principal) :
    Reply (List StoredUser) :=
  .ok 200 (store.mergeSort (fun a b => b.createdAt ≤ a.createdAt))

/-- `GET /api/users/:id` handler: fetch by primary key; the requester is
only checked for authentication, never consulted. -/
def getUserById (store : UserStore) (_requester : Principal) (id : Nat) :
    Reply StoredUser :=
  match findByPk store id with
  | none => .err 404 "User not found"
  | some u => .ok 200 u

/-! ## RBAC guard (`requireRole` plugin) -/

/-- Outcome of the `requireRole` guard: pass and continue the pipeline,
or halt with `{error, statusCode}`. -/
inductive GuardResult where
  | pass
  | reject (statusCode : Nat) (error : String)
deriving DecidableEq, Repr

/-- `request.requireRole(roles)`: 401 when unauthenticated, re-fetch the
row by the principal's id (401 when it no longer exists), then 403 when
the *stored* role is not among the required roles. -/
def requireRole (store : UserStore) (reqUser : Option Principal)
    (requiredRoles : List Role) : GuardResult :=
  match reqUser with
  | none => .reject 401 "Authentication required"
  | some p =>
      match findByPk store p.id with
      | none => .reject 401 "User not found"
      | some u =>
          if requiredRoles.contains u.role then .pass
          else .reject 403
            ("Access denied. Required role: " ++
              String.intercalate " or " (requiredRoles.map Role.name))

/-! ## Token service (JWT issuance and the `authenticate` decorator) -/

/-- The claims payload of a signed JWT. `role := none` means the token
carries no role claim at all. Signing and verification themselves are
delegated to the JWT library, so a verified token is its payload. -/
structure JwtPayload where
  userId : Nat
  email : String
  role : Option Role := none
deriving DecidableEq, Repr

/-- `fastify.jwt.sign({userId, email}, {expiresIn: '7d'})` as called by the
OAuth callback and the dev-token endpoint: only `userId` and `email`. -/
def signToken (userId : Nat) (email : String) : JwtPayload :=
  { userId := userId, email := email }

/-- The `authenticate` decorator's principal construction from a verified
token: `id` aliases `userId`, and `role` is `decoded.role || 'user'`. -/
def authenticate (decoded : JwtPayload) : Principal :=
  { userId := decoded.userId, id := decoded.userId,
    email := decoded.email, role := decoded.role.getD Role.user }

/-! ## OAuth callback reconciliation (`handleOAuthCallback`) -/

/-- Normalized identity produced by a provider adapter. -/
structure OAuthUserInfo where
  id : String
  email : String
  name : String
  picture : Option String := none
deriving DecidableEq, Repr

/-- The token object from the OAuth code exchange. -/
structure OAuthToken where
  access_token : String
  refresh_token : Option String := none
  expires_in : Option Nat := none
deriving DecidableEq, Repr

/-- The `updateFields` object built by the reconciliation block: each
field is present (`some`) exactly when the corresponding `if` in the
source adds it. -/
structure UpdateFields where
  oauthProvider : Option String := none
  oauthId : Option String := none
  oauthAccessToken : Option String := none
  oauthRefreshToken : Option String := none
  oauthTokenExpiresAt : Option Nat := none
deriving DecidableEq, Repr

/-- The field-by-field comparison of the reconciliation block for an
existing user: provider, oauth id, access token, refresh token (only when
the new one is truthy), and expiry are each added to `updateFields` when
they differ from the stored value. -/
def reconcileFields (u : StoredUser) (provider : String) (info : OAuthUserInfo)
    (tok : OAuthToken) (expiresAt : Nat) : UpdateFields :=
  { oauthProvider :=
      if u.oauthProvider ≠ some provider then some provider else none,
    oauthId :=
      if u.oauthId ≠ some info.id then some info.id else none,
    oauthAccessToken :=
      if u.oauthAccessToken ≠ some tok.access_token then some tok.access_token
      else none,
    oauthRefreshToken :=
      if strTruthy tok.refresh_token ∧ u.oauthRefreshToken ≠ tok.refresh_token
      then tok.refresh_token else none,
    oauthTokenExpiresAt :=
      if u.oauthTokenExpiresAt ≠ some expiresAt then some expiresAt else none }

/-- `needsUpdate`: the source sets this flag exactly when it adds a field,
so it is equivalent to some field being present. -/
def needsUpdate (uf : UpdateFields) : Bool :=
  uf.oauthProvider.isSome || uf.oauthId.isSome || uf.oauthAccessToken.isSome ||
  uf.oauthRefreshToken.isSome || uf.oauthTokenExpiresAt.isSome

/-- Number of `User.update` calls the reconciliation block performs. -/
def reconcileWrites (uf : UpdateFields) : Nat :=
  if needsUpdate uf then 1 else 0

/-- `User.update(updateFields, ...)` / `Object.assign(user, updateFields)`
applied to a row: overwrite exactly the present fields. -/
def applyUpdate (u : StoredUser) (uf : UpdateFields) : StoredUser :=
  { u with
    oauthProvider := match uf.oauthProvider with
      | some v => some v | none => u.oauthProvider,
    oauthId := match uf.oauthId with
      | some v => some v | none => u.oauthId,
    oauthAccessToken := match uf.oauthAccessToken with
      | some v => some v | none => u.oauthAccessToken,
    oauthRefreshToken := match uf.oauthRefreshToken with
      | some v => some v | none => u.oauthRefreshToken,
    oauthTokenExpiresAt := match uf.oauthTokenExpiresAt with
      | some v => some v | none => u.oauthTokenExpiresAt }

/-- Result of the success path of the OAuth callback: the store after the
find-or-create and reconciliation, the user the response describes, the
signed JWT payload, and how many `User.update` writes happened. -/
structure CallbackResult where
  store : UserStore
  user : StoredUser
  token : JwtPayload
  writes : Nat
deriving DecidableEq, Repr

/-- The success path of `handleOAuthCallback` after code exchange and
identity normalization: compute `expiresAt = now + (expires_in || 3600)`,
find-or-create by email, reconcile an existing row, then sign
`{userId, email}`. -/
def handleOAuthCallback (store : UserStore) (provider : String)
    (userInfo : OAuthUserInfo) (tok : OAuthToken) (now : Nat) : CallbackResult :=
  let expiresAt := now + jsNumOr tok.expires_in 3600
  match findByEmail store userInfo.email with
  | none =>
      let u : StoredUser :=
        { id := freshId store, name := userInfo.name, email := userInfo.email,
          role := Role.user, oauthProvider := some provider,
          oauthId := some userInfo.id,
          oauthAccessToken := some tok.access_token,
          oauthRefreshToken := tok.refresh_token,
          oauthTokenExpiresAt := some expiresAt }
      { store := store ++ [u], user := u,
        token := signToken u.id u.email, writes := 0 }
  | some u =>
      let uf := reconcileFields u provider userInfo tok expiresAt
      if needsUpdate uf then
        let u' := applyUpdate u uf
        { store := store.map (fun v => if v.id = u.id then applyUpdate v uf else v),
          user := u', token := signToken u'.id u'.email, writes := 1 }
      else
        { store := store, user := u,
          token := signToken u.id u.email, writes := 0 }

/-! ## Dev-token endpoint (`POST /auth/dev/token`) -/

/-- Result of the dev-token endpoint. -/
inductive DevTokenResult where
  | badRequest (statusCode : Nat) (error : String)
  | issued (store : UserStore) (user : StoredUser) (token : JwtPayload)
deriving DecidableEq, Repr

/-- `POST /auth/dev/token`: 400 when email is missing, otherwise
find-or-create by email (name defaulting to `'Test User'`) and sign
`{userId, email}`. -/
def devTokenHandler (store : UserStore) (email name : Option String) :
    DevTokenResult :=
  if !(strTruthy email) then .badRequest 400 "Email is required"
  else
    let em := email.getD ""
    match findByEmail store em with
    | some u => .issued store u (signToken u.id u.email)
    | none =>
        let u : StoredUser :=
          { id := freshId store, name := (jsOr name (some "Test User")).getD "",
            email := em, role := Role.user }
        .issued (store ++ [u]) u (signToken u.id u.email)

/-! ## Admin user management (`adminRoutes` DELETE /:id) -/

/-- The `DELETE /api/admin/users/:id` handler body: self-deletion guard,
then fetch by primary key, then destroy. -/
def adminDeleteHandler (store : UserStore) (requester : Principal) (id : Nat) :
    Reply String × UserStore :=
  if requester.id = id then
    (.err 400 "Cannot delete your own account", store)
  else
    match findByPk store id with
    | none => (.err 404 "User not found", store)
    | some _ => (.ok 200 "User deleted successfully",
                 store.filter (fun u => u.id ≠ id))

/-- The full `DELETE /api/admin/users/:id` route: the `requireRole('admin')`
guard runs first, then the handler. -/
def adminDeleteRoute (store : UserStore) (requester : Principal) (id : Nat) :
    Reply String × UserStore :=
  match requireRole store (some requester) [Role.admin] with
  | .reject c m => (.err c m, store)
  | .pass => adminDeleteHandler store requester id

/-! ## GitHub identity normalizer (`fetchGitHubUserInfo`) -/

/-- The GitHub `/user` profile response fields the adapter reads. -/
structure GitHubProfile where
  id : Nat
  email : Option String := none
  name : Option String := none
  login : String
  avatar_url : String
deriving DecidableEq, Repr

/-- One entry of the GitHub `/user/emails` response. -/
structure GitHubEmail where
  email : String
  primary : Bool
  verified : Bool
deriving DecidableEq, Repr

/-- The email the adapter ends up with: the profile email when truthy;
otherwise, when the emails request succeeded, the first `primary && verified`
entry's email or (`||`) the first entry's email. `emailsResp = none` models
a failed emails request. -/
def githubResolvedEmail (profile : GitHubProfile)
    (emailsResp : Option (List GitHubEmail)) : Option String :=
  if strTruthy profile.email then profile.email
  else
    match emailsResp with
    | none => profile.email
    | some emails =>
        let primaryEmail := emails.find? (fun e => e.primary && e.verified)
        jsOr (primaryEmail.map (fun e => e.email))
             (emails.head?.map (fun e => e.email))

/-- `fetchGitHubUserInfo`: fail on a bad profile response; resolve the
email (fetching the emails list when the profile has none); fail when no
email resolves; otherwise normalize. -/
def fetchGitHubUserInfo (profileOk : Bool) (profile : GitHubProfile)
    (emailsResp : Option (List GitHubEmail)) : Except String OAuthUserInfo :=
  if !profileOk then .error "Failed to fetch GitHub user info"
  else
    let email := githubResolvedEmail profile emailsResp
    if !(strTruthy email) then .error "No email found in GitHub account"
    else .ok { id := toString profile.id, email := email.getD "",
               name := (jsOr profile.name (some profile.login)).getD "",
               picture := some profile.avatar_url }

/-! ## Theorems -/

/-- C1 — counterexample: the claim says a non-admin requesting `role: admin`
has the user silently created with role `user`; on the code the request is
instead rejected with 403 and no user is created. Concretely, requester
Alice (role `user`) posting `{name: "Eve", email: "eve@x.com", role: admin}`
gets `403 "Insufficient permissions to create admin users"` and the store
is unchanged. -/
theorem createUser_nonadmin_admin_request_rejected :
    createUser
      [{ id := 1, name := "Alice", email := "alice@x.com", role := Role.user }]
      { userId := 1, id := 1, email := "alice@x.com", role := Role.user }
      { name := "Eve", email := "eve@x.com", role := some Role.admin }
    = (.err 403 "Insufficient permissions to create admin users",
       [{ id := 1, name := "Alice", email := "alice@x.com", role := Role.user }]) := by
  rfl

/-- C1 — amended: for a non-admin requester, `POST /api/users` with
`role: admin` in the body is rejected with 403 and creates nothing, while
any other request (role `user` or omitted) creates the user with role
`user`. -/
theorem createUser_role_escalation_guard (store : UserStore)
    (requester : Principal) (body : CreateUserBody)
    (h : requester.role ≠ Role.admin) :
    (body.role = some Role.admin →
      createUser store requester body
        = (.err 403 "Insufficient permissions to create admin users", store))
  ∧ (body.role ≠ some Role.admin →
      createUser store requester body
        = (.ok 201 { id := freshId store, name := body.name,
                     email := body.email, role := Role.user },
           store ++ [{ id := freshId store, name := body.name,
                       email := body.email, role := Role.user }])) := by
  constructor
  · intro hr
    simp [createUser, hr, h]
  · intro hr
    simp only [createUser]
    rw [if_neg (by intro hc; exact hr hc.1)]
    cases hb : body.role with
    | none => rfl
    | some r => simp [if_neg h]

/-- C1 — witness for the amended theorem at a concrete non-admin
requester: the admin-role request yields 403 with the store unchanged,
and the role-free request creates the user with role `user`. -/
theorem createUser_role_escalation_guard_witness :
    createUser [] { userId := 1, id := 1, email := "a@x.com", role := Role.user }
      { name := "Eve", email := "eve@x.com", role := some Role.admin }
      = (.err 403 "Insufficient permissions to create admin users", [])
  ∧ createUser [] { userId := 1, id := 1, email := "a@x.com", role := Role.user }
      { name := "Bob", email := "bob@x.com" }
      = (.ok 201 { id := 1, name := "Bob", email := "bob@x.com", role := Role.user },
         [{ id := 1, name := "Bob", email := "bob@x.com", role := Role.user }]) := by
  refine ⟨?_, ?_⟩
  · exact (createUser_role_escalation_guard []
      { userId := 1, id := 1, email := "a@x.com", role := Role.user }
      { name := "Eve", email := "eve@x.com", role := some Role.admin }
      (by decide)).1 rfl
  · exact (createUser_role_escalation_guard []
      { userId := 1, id := 1, email := "a@x.com", role := Role.user }
      { name := "Bob", email := "bob@x.com" }
      (by decide)).2 (by decide)

/-- C2: on a target id that does not exist, a non-admin requester whose
own id differs from the target still gets 403 from both `PUT` and
`DELETE /api/users/:id` (permission before existence), while an admin
requester gets 404 from both. -/
theorem update_delete_permission_before_existence (store : UserStore)
    (requester : Principal) (id : Nat) (body : UpdateUserBody)
    (hmiss : findByPk store id = none) :
    (requester.role ≠ Role.admin → requester.id ≠ id →
      (updateUser store requester id body).1
        = .err 403 "Insufficient permissions to update this user"
    ∧ (deleteUser store requester id).1
        = .err 403 "Insufficient permissions to delete this user")
  ∧ (requester.role = Role.admin →
      (updateUser store requester id body).1 = .err 404 "User not found"
    ∧ (deleteUser store requester id).1 = .err 404 "User not found") := by
  have hfilter : store.filter (fun u => u.id == id) = [] := by
    rw [List.filter_eq_nil_iff]
    intro u hu
    have := List.find?_eq_none.mp hmiss u hu
    simpa using this
  constructor
  · intro hrole hid
    constructor
    · simp [updateUser, hid, hrole]
    · simp [deleteUser, hid, hrole]
  · intro hrole
    constructor
    · simp [updateUser, hrole, hmiss]
    · simp [deleteUser, hrole, hfilter]

/-- C2 — witness: in a store holding only user 1, non-admin requester 2
targeting absent id 5 gets 403 from update and delete; admin requester 2
targeting absent id 5 gets 404 from both. -/
theorem update_delete_permission_before_existence_witness :
    ((updateUser [{ id := 1, name := "A", email := "a@x.com", role := Role.user }]
        { userId := 2, id := 2, email := "b@x.com", role := Role.user } 5 {}).1
      = .err 403 "Insufficient permissions to update this user"
    ∧ (deleteUser [{ id := 1, name := "A", email := "a@x.com", role := Role.user }]
        { userId := 2, id := 2, email := "b@x.com", role := Role.user } 5).1
      = .err 403 "Insufficient permissions to delete this user")
  ∧ ((updateUser [{ id := 1, name := "A", email := "a@x.com", role := Role.user }]
        { userId := 2, id := 2, email := "b@x.com", role := Role.admin } 5 {}).1
      = .err 404 "User not found"
    ∧ (deleteUser [{ id := 1, name := "A", email := "a@x.com", role := Role.user }]
        { userId := 2, id := 2, email := "b@x.com", role := Role.admin } 5).1
      = .err 404 "User not found") := by
  refine ⟨?_, ?_⟩
  · exact (update_delete_permission_before_existence
      [{ id := 1, name := "A", email := "a@x.com", role := Role.user }]
      { userId := 2, id := 2, email := "b@x.com", role := Role.user } 5 {}
      (by decide)).1 (by decide) (by decide)
  · exact (update_delete_permission_before_existence
      [{ id := 1, name := "A", email := "a@x.com", role := Role.user }]
      { userId := 2, id := 2, email := "b@x.com", role := Role.admin } 5 {}
      (by decide)).2 rfl

/-- C3: a repeat OAuth login (the user already exists for the email)
whose provider, oauth id, access token, refresh token and computed expiry
all equal the stored values performs zero `User.update` writes and leaves
the store unchanged. -/
theorem oauth_relogin_unchanged_zero_writes (store : UserStore)
    (u : StoredUser) (provider : String) (info : OAuthUserInfo)
    (tok : OAuthToken) (now : Nat)
    (hfind : findByEmail store info.email = some u)
    (hp : u.oauthProvider = some provider)
    (hi : u.oauthId = some info.id)
    (ha : u.oauthAccessToken = some tok.access_token)
    (hr : u.oauthRefreshToken = tok.refresh_token)
    (he : u.oauthTokenExpiresAt = some (now + jsNumOr tok.expires_in 3600)) :
    (handleOAuthCallback store provider info tok now).writes = 0
  ∧ (handleOAuthCallback store provider info tok now).store = store := by
  have huf : needsUpdate (reconcileFields u provider info tok
      (now + jsNumOr tok.expires_in 3600)) = false := by
    simp [needsUpdate, reconcileFields, hp, hi, ha, hr, he]
  constructor <;> simp [handleOAuthCallback, hfind, huf]

/-- C3 — witness: a stored user whose OAuth fields match an identical
repeat login exactly; the callback performs zero writes and returns the
store unchanged. -/
theorem oauth_relogin_unchanged_zero_writes_witness :
    (handleOAuthCallback
      [{ id := 1, name := "A", email := "a@x.com", role := Role.user,
         oauthProvider := some "github", oauthId := some "77",
         oauthAccessToken := some "tokA", oauthRefreshToken := some "refA",
         oauthTokenExpiresAt := some 4600 }]
      "github" { id := "77", email := "a@x.com", name := "A" }
      { access_token := "tokA", refresh_token := some "refA",
        expires_in := some 3600 } 1000).writes = 0
  ∧ (handleOAuthCallback
      [{ id := 1, name := "A", email := "a@x.com", role := Role.user,
         oauthProvider := some "github", oauthId := some "77",
         oauthAccessToken := some "tokA", oauthRefreshToken := some "refA",
         oauthTokenExpiresAt := some 4600 }]
      "github" { id := "77", email := "a@x.com", name := "A" }
      { access_token := "tokA", refresh_token := some "refA",
        expires_in := some 3600 } 1000).store
    = [{ id := 1, name := "A", email := "a@x.com", role := Role.user,
         oauthProvider := some "github", oauthId := some "77",
         oauthAccessToken := some "tokA", oauthRefreshToken := some "refA",
         oauthTokenExpiresAt := some 4600 }] :=
  oauth_relogin_unchanged_zero_writes
    [{ id := 1, name := "A", email := "a@x.com", role := Role.user,
       oauthProvider := some "github", oauthId := some "77",
       oauthAccessToken := some "tokA", oauthRefreshToken := some "refA",
       oauthTokenExpiresAt := some 4600 }]
    { id := 1, name := "A", email := "a@x.com", role := Role.user,
      oauthProvider := some "github", oauthId := some "77",
      oauthAccessToken := some "tokA", oauthRefreshToken := some "refA",
      oauthTokenExpiresAt := some 4600 }
    "github" { id := "77", email := "a@x.com", name := "A" }
    { access_token := "tokA", refresh_token := some "refA",
      expires_in := some 3600 } 1000
    (by decide) (by decide) (by decide) (by decide) (by decide) (by decide)

/-- C4: `requireRole` decides from the role currently stored for the
principal's id, never the token role — two principals with the same id
get the same decision whatever their token roles; when the stored row
exists the outcome is pass or 403 exactly by whether its stored role is
allowed; when the row no longer exists the outcome is 401. -/
theorem requireRole_uses_stored_role (store : UserStore) (p q : Principal)
    (roles : List Role) (hid : p.id = q.id) :
    requireRole store (some p) roles = requireRole store (some q) roles
  ∧ (∀ u, findByPk store p.id = some u → u.role ∈ roles →
      requireRole store (some p) roles = .pass)
  ∧ (∀ u, findByPk store p.id = some u → u.role ∉ roles →
      requireRole store (some p) roles
        = .reject 403 ("Access denied. Required role: " ++
            String.intercalate " or " (roles.map Role.name)))
  ∧ (findByPk store p.id = none →
      requireRole store (some p) roles = .reject 401 "User not found") := by
  refine ⟨?_, ?_, ?_, ?_⟩
  · simp [requireRole, hid]
  · intro u hu hrole
    simp [requireRole, hu, hrole]
  · intro u hu hrole
    simp [requireRole, hu, hrole]
  · intro hnone
    simp [requireRole, hnone]

/-- C4 — witness: with a store where user 1 was demoted to role `user`,
a principal whose token still says `admin` is rejected with 403 by
`requireRole [admin]`, identically to a token that says `user`; and for
an id absent from the store the guard rejects with 401. -/
theorem requireRole_uses_stored_role_witness :
    requireRole [{ id := 1, name := "A", email := "a@x.com", role := Role.user }]
      (some { userId := 1, id := 1, email := "a@x.com", role := Role.admin })
      [Role.admin]
    = requireRole [{ id := 1, name := "A", email := "a@x.com", role := Role.user }]
      (some { userId := 1, id := 1, email := "a@x.com", role := Role.user })
      [Role.admin]
  ∧ requireRole [{ id := 1, name := "A", email := "a@x.com", role := Role.user }]
      (some { userId := 1, id := 1, email := "a@x.com", role := Role.admin })
      [Role.admin]
    = .reject 403 "Access denied. Required role: admin"
  ∧ requireRole [] (some { userId := 1, id := 1, email := "a@x.com", role := Role.admin })
      [Role.admin]
    = .reject 401 "User not found" := by
  have h := requireRole_uses_stored_role
    [{ id := 1, name := "A", email := "a@x.com", role := Role.user }]
    { userId := 1, id := 1, email := "a@x.com", role := Role.admin }
    { userId := 1, id := 1, email := "a@x.com", role := Role.user }
    [Role.admin] rfl
  have h' := requireRole_uses_stored_role ([] : UserStore)
    { userId := 1, id := 1, email := "a@x.com", role := Role.admin }
    { userId := 1, id := 1, email := "a@x.com", role := Role.admin }
    [Role.admin] rfl
  refine ⟨h.1, ?_, h'.2.2.2 rfl⟩
  exact h.2.2.1 { id := 1, name := "A", email := "a@x.com", role := Role.user }
    rfl (by decide)

/-- C5: verifying a token issued from `{userId, email}` recovers that
`userId` and `email`, and the `authenticate` decorator attaches role
`user` whenever the verified token carries no role claim (in particular
to every token `signToken` issues). -/
theorem verify_issue_roundtrip (userId : Nat) (email : String) :
    (authenticate (signToken userId email)).userId = userId
  ∧ (authenticate (signToken userId email)).email = email
  ∧ (authenticate (signToken userId email)).role = Role.user
  ∧ (∀ p : JwtPayload, p.role = none → (authenticate p).role = Role.user) := by
  refine ⟨rfl, rfl, rfl, ?_⟩
  intro p hp
  simp [authenticate, hp]

/-- C5 — witness at a concrete claims record. -/
theorem verify_issue_roundtrip_witness :
    (authenticate (signToken 42 "u@x.com")).userId = 42
  ∧ (authenticate (signToken 42 "u@x.com")).email = "u@x.com"
  ∧ (authenticate (signToken 42 "u@x.com")).role = Role.user
  ∧ (authenticate { userId := 9, email := "z@x.com", role := none }).role
      = Role.user := by
  have h := verify_issue_roundtrip 42 "u@x.com"
  exact ⟨h.1, h.2.1, h.2.2.1,
    h.2.2.2 { userId := 9, email := "z@x.com", role := none } rfl⟩

/-- C7: on a repeat login the reconciliation leaves `id`, `name`, `email`
and `role` untouched, brings every provider field to the fresh login's
value except that the refresh token is only overwritten when the new one
is non-empty, omits from the update object every field whose stored value
already equals the new one, and performs at most one write. -/
theorem reconcile_updates_exactly_changed (u : StoredUser) (provider : String)
    (info : OAuthUserInfo) (tok : OAuthToken) (expiresAt : Nat) :
    (applyUpdate u (reconcileFields u provider info tok expiresAt)).id = u.id
  ∧ (applyUpdate u (reconcileFields u provider info tok expiresAt)).name = u.name
  ∧ (applyUpdate u (reconcileFields u provider info tok expiresAt)).email = u.email
  ∧ (applyUpdate u (reconcileFields u provider info tok expiresAt)).role = u.role
  ∧ (applyUpdate u (reconcileFields u provider info tok expiresAt)).oauthProvider
      = some provider
  ∧ (applyUpdate u (reconcileFields u provider info tok expiresAt)).oauthId
      = some info.id
  ∧ (applyUpdate u (reconcileFields u provider info tok expiresAt)).oauthAccessToken
      = some tok.access_token
  ∧ (applyUpdate u (reconcileFields u provider info tok expiresAt)).oauthRefreshToken
      = (if strTruthy tok.refresh_token then tok.refresh_token
         else u.oauthRefreshToken)
  ∧ (applyUpdate u (reconcileFields u provider info tok expiresAt)).oauthTokenExpiresAt
      = some expiresAt
  ∧ (u.oauthProvider = some provider →
      (reconcileFields u provider info tok expiresAt).oauthProvider = none)
  ∧ (u.oauthId = some info.id →
      (reconcileFields u provider info tok expiresAt).oauthId = none)
  ∧ (u.oauthAccessToken = some tok.access_token →
      (reconcileFields u provider info tok expiresAt).oauthAccessToken = none)
  ∧ (u.oauthRefreshToken = tok.refresh_token →
      (reconcileFields u provider info tok expiresAt).oauthRefreshToken = none)
  ∧ (u.oauthTokenExpiresAt = some expiresAt →
      (reconcileFields u provider info tok expiresAt).oauthTokenExpiresAt = none)
  ∧ reconcileWrites (reconcileFields u provider info tok expiresAt) ≤ 1 := by
  refine ⟨rfl, rfl, rfl, rfl, ?_, ?_, ?_, ?_, ?_, ?_, ?_, ?_, ?_, ?_, ?_⟩
  · by_cases h : u.oauthProvider = some provider <;>
      simp [applyUpdate, reconcileFields, h]
  · by_cases h : u.oauthId = some info.id <;>
      simp [applyUpdate, reconcileFields, h]
  · by_cases h : u.oauthAccessToken = some tok.access_token <;>
      simp [applyUpdate, reconcileFields, h]
  · by_cases ht : strTruthy tok.refresh_token
    · by_cases hd : u.oauthRefreshToken = tok.refresh_token
      · simp [applyUpdate, reconcileFields, ht, hd]
      · obtain ⟨s, hs⟩ : ∃ s, tok.refresh_token = some s := by
          cases h : tok.refresh_token with
          | none => rw [h] at ht; simp [strTruthy] at ht
          | some s => exact ⟨s, rfl⟩
        rw [hs] at ht hd
        simp [applyUpdate, reconcileFields, ht, hd, hs]
    · simp [applyUpdate, reconcileFields, ht]
  · by_cases h : u.oauthTokenExpiresAt = some expiresAt <;>
      simp [applyUpdate, reconcileFields, h]
  · intro h; simp [reconcileFields, h]
  · intro h; simp [reconcileFields, h]
  · intro h; simp [reconcileFields, h]
  · intro h; simp [reconcileFields, h]
  · intro h; simp [reconcileFields, h]
  · simp only [reconcileWrites]
    split <;> omega

/-- C7 — witness: a changed access token and expiry with an empty fresh
refresh token updates exactly those two fields, keeps the stored refresh
token, and leaves identity fields alone, in at most one write. -/
theorem reconcile_updates_exactly_changed_witness :
    (applyUpdate
      { id := 1, name := "A", email := "a@x.com", role := Role.user,
        oauthProvider := some "github", oauthId := some "77",
        oauthAccessToken := some "old", oauthRefreshToken := some "refA",
        oauthTokenExpiresAt := some 100 }
      (reconcileFields
        { id := 1, name := "A", email := "a@x.com", role := Role.user,
          oauthProvider := some "github", oauthId := some "77",
          oauthAccessToken := some "old", oauthRefreshToken := some "refA",
          oauthTokenExpiresAt := some 100 }
        "github" { id := "77", email := "a@x.com", name := "A" }
        { access_token := "new", refresh_token := none, expires_in := some 60 }
        260)).oauthAccessToken = some "new"
  ∧ (applyUpdate
      { id := 1, name := "A", email := "a@x.com", role := Role.user,
        oauthProvider := some "github", oauthId := some "77",
        oauthAccessToken := some "old", oauthRefreshToken := some "refA",
        oauthTokenExpiresAt := some 100 }
      (reconcileFields
        { id := 1, name := "A", email := "a@x.com", role := Role.user,
          oauthProvider := some "github", oauthId := some "77",
          oauthAccessToken := some "old", oauthRefreshToken := some "refA",
          oauthTokenExpiresAt := some 100 }
        "github" { id := "77", email := "a@x.com", name := "A" }
        { access_token := "new", refresh_token := none, expires_in := some 60 }
        260)).oauthRefreshToken = some "refA"
  ∧ (applyUpdate
      { id := 1, name := "A", email := "a@x.com", role := Role.user,
        oauthProvider := some "github", oauthId := some "77",
        oauthAccessToken := some "old", oauthRefreshToken := some "refA",
        oauthTokenExpiresAt := some 100 }
      (reconcileFields
        { id := 1, name := "A", email := "a@x.com", role := Role.user,
          oauthProvider := some "github", oauthId := some "77",
          oauthAccessToken := some "old", oauthRefreshToken := some "refA",
          oauthTokenExpiresAt := some 100 }
        "github" { id := "77", email := "a@x.com", name := "A" }
        { access_token := "new", refresh_token := none, expires_in := some 60 }
        260)).name = "A"
  ∧ (reconcileFields
        { id := 1, name := "A", email := "a@x.com", role := Role.user,
          oauthProvider := some "github", oauthId := some "77",
          oauthAccessToken := some "old", oauthRefreshToken := some "refA",
          oauthTokenExpiresAt := some 100 }
        "github" { id := "77", email := "a@x.com", name := "A" }
        { access_token := "new", refresh_token := none, expires_in := some 60 }
        260).oauthProvider = none
  ∧ reconcileWrites
      (reconcileFields
        { id := 1, name := "A", email := "a@x.com", role := Role.user,
          oauthProvider := some "github", oauthId := some "77",
          oauthAccessToken := some "old", oauthRefreshToken := some "refA",
          oauthTokenExpiresAt := some 100 }
        "github" { id := "77", email := "a@x.com", name := "A" }
        { access_token := "new", refresh_token := none, expires_in := some 60 }
        260) ≤ 1 := by
  have h := reconcile_updates_exactly_changed
    { id := 1, name := "A", email := "a@x.com", role := Role.user,
      oauthProvider := some "github", oauthId := some "77",
      oauthAccessToken := some "old", oauthRefreshToken := some "refA",
      oauthTokenExpiresAt := some 100 }
    "github" { id := "77", email := "a@x.com", name := "A" }
    { access_token := "new", refresh_token := none, expires_in := some 60 }
    260
  refine ⟨h.2.2.2.2.2.2.1, ?_, h.2.1,
    h.2.2.2.2.2.2.2.2.2.1 rfl,
    h.2.2.2.2.2.2.2.2.2.2.2.2.2.2⟩
  have h8 := h.2.2.2.2.2.2.2.1
  simpa [strTruthy] using h8

/-- C6: when the profile has no email, the GitHub adapter resolves the
first `primary && verified` entry of the emails list, falls back to the
first entry when there is no primary-verified entry, fails with the
no-email error when nothing resolves from either call, and in particular
resolves the claim's two-entry scenario to `p@x.com`. -/
theorem github_email_selection :
    (∀ (profile : GitHubProfile) (emails : List GitHubEmail) (e : GitHubEmail),
      strTruthy profile.email = false →
      emails.find? (fun x => x.primary && x.verified) = some e →
      e.email ≠ "" →
      fetchGitHubUserInfo true profile (some emails)
        = .ok { id := toString profile.id, email := e.email,
                name := (jsOr profile.name (some profile.login)).getD "",
                picture := some profile.avatar_url })
  ∧ (∀ (profile : GitHubProfile) (e0 : GitHubEmail) (rest : List GitHubEmail),
      strTruthy profile.email = false →
      (e0 :: rest).find? (fun x => x.primary && x.verified) = none →
      e0.email ≠ "" →
      fetchGitHubUserInfo true profile (some (e0 :: rest))
        = .ok { id := toString profile.id, email := e0.email,
                name := (jsOr profile.name (some profile.login)).getD "",
                picture := some profile.avatar_url })
  ∧ (∀ (profile : GitHubProfile) (emailsResp : Option (List GitHubEmail)),
      strTruthy (githubResolvedEmail profile emailsResp) = false →
      fetchGitHubUserInfo true profile emailsResp
        = .error "No email found in GitHub account")
  ∧ fetchGitHubUserInfo true
      { id := 7, email := none, name := some "P Name", login := "plogin",
        avatar_url := "pic" }
      (some [{ email := "s@x.com", primary := false, verified := true },
             { email := "p@x.com", primary := true, verified := true }])
      = .ok { id := "7", email := "p@x.com", name := "P Name",
              picture := some "pic" } := by
  refine ⟨?_, ?_, ?_, rfl⟩
  · intro profile emails e hprof hfind he
    have hres : githubResolvedEmail profile (some emails) = some e.email := by
      rw [githubResolvedEmail, if_neg (by simp [hprof])]
      simp [hfind, jsOr, strTruthy, he]
    simp [fetchGitHubUserInfo, hres, strTruthy, he]
  · intro profile e0 rest hprof hfind he
    have hres : githubResolvedEmail profile (some (e0 :: rest)) = some e0.email := by
      rw [githubResolvedEmail, if_neg (by simp [hprof])]
      simp [hfind, jsOr, strTruthy]
    simp [fetchGitHubUserInfo, hres, strTruthy, he]
  · intro profile emailsResp hres
    simp [fetchGitHubUserInfo, hres]

/-- C6 — witness: the first general conjunct applied at the claim's
concrete scenario picks the primary-verified entry `p@x.com`. -/
theorem github_email_selection_witness :
    fetchGitHubUserInfo true
      { id := 7, email := none, name := some "P Name", login := "plogin",
        avatar_url := "pic" }
      (some [{ email := "s@x.com", primary := false, verified := true },
             { email := "p@x.com", primary := true, verified := true }])
      = .ok { id := "7", email := "p@x.com", name := "P Name",
              picture := some "pic" } :=
  github_email_selection.1
    { id := 7, email := none, name := some "P Name", login := "plogin",
      avatar_url := "pic" }
    [{ email := "s@x.com", primary := false, verified := true },
     { email := "p@x.com", primary := true, verified := true }]
    { email := "p@x.com", primary := true, verified := true }
    (by decide) (by decide) (by decide)

/-- C8: for a requester whose stored role is admin, the admin delete
route returns 400 on the requester's own id (before any existence check),
deletes and confirms on any other existing id, and returns 404 on any
other absent id. -/
theorem admin_delete_route_behavior (store : UserStore) (p : Principal)
    (pu : StoredUser) (id : Nat)
    (hp : findByPk store p.id = some pu) (hrole : pu.role = Role.admin) :
    (id = p.id →
      adminDeleteRoute store p id
        = (.err 400 "Cannot delete your own account", store))
  ∧ (∀ u, id ≠ p.id → findByPk store id = some u →
      adminDeleteRoute store p id
        = (.ok 200 "User deleted successfully",
           store.filter (fun v => v.id ≠ id)))
  ∧ (id ≠ p.id → findByPk store id = none →
      adminDeleteRoute store p id = (.err 404 "User not found", store)) := by
  have hguard : requireRole store (some p) [Role.admin] = .pass := by
    simp [requireRole, hp, hrole]
  refine ⟨?_, ?_, ?_⟩
  · intro hid
    simp [adminDeleteRoute, hguard, adminDeleteHandler, hid]
  · intro u hid hu
    simp [adminDeleteRoute, hguard, adminDeleteHandler, Ne.symm hid, hu]
  · intro hid hnone
    simp [adminDeleteRoute, hguard, adminDeleteHandler, Ne.symm hid, hnone]

/-- C8 — witness: admin 1 deleting id 1 gets 400, deleting existing id 2
gets the confirmation with user 2 removed, deleting absent id 9 gets
404. -/
theorem admin_delete_route_behavior_witness :
    adminDeleteRoute
      [{ id := 1, name := "Adm", email := "adm@x.com", role := Role.admin },
       { id := 2, name := "B", email := "b@x.com", role := Role.user }]
      { userId := 1, id := 1, email := "adm@x.com", role := Role.admin } 1
      = (.err 400 "Cannot delete your own account",
         [{ id := 1, name := "Adm", email := "adm@x.com", role := Role.admin },
          { id := 2, name := "B", email := "b@x.com", role := Role.user }])
  ∧ adminDeleteRoute
      [{ id := 1, name := "Adm", email := "adm@x.com", role := Role.admin },
       { id := 2, name := "B", email := "b@x.com", role := Role.user }]
      { userId := 1, id := 1, email := "adm@x.com", role := Role.admin } 2
      = (.ok 200 "User deleted successfully",
         [{ id := 1, name := "Adm", email := "adm@x.com", role := Role.admin }])
  ∧ adminDeleteRoute
      [{ id := 1, name := "Adm", email := "adm@x.com", role := Role.admin },
       { id := 2, name := "B", email := "b@x.com", role := Role.user }]
      { userId := 1, id := 1, email := "adm@x.com", role := Role.admin } 9
      = (.err 404 "User not found",
         [{ id := 1, name := "Adm", email := "adm@x.com", role := Role.admin },
          { id := 2, name := "B", email := "b@x.com", role := Role.user }]) := by
  have h := admin_delete_route_behavior
    [{ id := 1, name := "Adm", email := "adm@x.com", role := Role.admin },
     { id := 2, name := "B", email := "b@x.com", role := Role.user }]
    { userId := 1, id := 1, email := "adm@x.com", role := Role.admin }
    { id := 1, name := "Adm", email := "adm@x.com", role := Role.admin }
    1 rfl rfl
  have h2 := admin_delete_route_behavior
    [{ id := 1, name := "Adm", email := "adm@x.com", role := Role.admin },
     { id := 2, name := "B", email := "b@x.com", role := Role.user }]
    { userId := 1, id := 1, email := "adm@x.com", role := Role.admin }
    { id := 1, name := "Adm", email := "adm@x.com", role := Role.admin }
    2 rfl rfl
  have h9 := admin_delete_route_behavior
    [{ id := 1, name := "Adm", email := "adm@x.com", role := Role.admin },
     { id := 2, name := "B", email := "b@x.com", role := Role.user }]
    { userId := 1, id := 1, email := "adm@x.com", role := Role.admin }
    { id := 1, name := "Adm", email := "adm@x.com", role := Role.admin }
    9 rfl rfl
  refine ⟨h.1 rfl, ?_, h9.2.2 (by decide) (by decide)⟩
  have := h2.2.1 { id := 2, name := "B", email := "b@x.com", role := Role.user }
    (by decide) (by decide)
  simpa using this

/-- C9: the JWT issued on the OAuth callback success path and any JWT the
dev-token endpoint issues carry exactly the user's id and email, with no
role claim. -/
theorem issued_tokens_omit_role (store : UserStore) (provider : String)
    (info : OAuthUserInfo) (tok : OAuthToken) (now : Nat)
    (email name : Option String) :
    (handleOAuthCallback store provider info tok now).token
      = { userId := (handleOAuthCallback store provider info tok now).user.id,
          email := (handleOAuthCallback store provider info tok now).user.email,
          role := none }
  ∧ (∀ st u t, devTokenHandler store email name = .issued st u t →
      t = { userId := u.id, email := u.email, role := none }) := by
  constructor
  · simp only [handleOAuthCallback]
    cases hfind : findByEmail store info.email with
    | none => simp [signToken]
    | some u =>
        by_cases hupd : needsUpdate (reconcileFields u provider info tok
          (now + jsNumOr tok.expires_in 3600)) <;>
        simp [hupd, signToken]
  · intro st u t ht
    simp only [devTokenHandler] at ht
    split at ht
    · exact absurd ht (by simp)
    · split at ht
      next u' hu' =>
        cases ht
        rfl
      next =>
        cases ht
        rfl

/-- C9 — witness: a fresh-login callback token and a dev token both carry
`{userId, email}` and no role claim. -/
theorem issued_tokens_omit_role_witness :
    (handleOAuthCallback [] "github" { id := "77", email := "a@x.com", name := "A" }
      { access_token := "tokA" } 0).token
      = { userId := (handleOAuthCallback [] "github"
            { id := "77", email := "a@x.com", name := "A" }
            { access_token := "tokA" } 0).user.id,
          email := (handleOAuthCallback [] "github"
            { id := "77", email := "a@x.com", name := "A" }
            { access_token := "tokA" } 0).user.email,
          role := none }
  ∧ devTokenHandler [] (some "a@x.com") none
      = .issued [{ id := 1, name := "Test User", email := "a@x.com",
                   role := Role.user }]
          { id := 1, name := "Test User", email := "a@x.com", role := Role.user }
          { userId := 1, email := "a@x.com", role := none } := by
  have h := issued_tokens_omit_role [] "github"
    { id := "77", email := "a@x.com", name := "A" }
    { access_token := "tokA" } 0 (some "a@x.com") none
  refine ⟨h.1, ?_⟩
  have hd : devTokenHandler [] (some "a@x.com") none
      = .issued [{ id := 1, name := "Test User", email := "a@x.com",
                   role := Role.user }]
          { id := 1, name := "Test User", email := "a@x.com", role := Role.user }
          (signToken 1 "a@x.com") := by decide
  have := h.2 [{ id := 1, name := "Test User", email := "a@x.com",
                 role := Role.user }]
    { id := 1, name := "Test User", email := "a@x.com", role := Role.user }
    (signToken 1 "a@x.com") hd
  rw [hd, this]

/-- C10: the authenticated read endpoints consult the requester for
nothing beyond authentication — any two principals receive identical
replies; listing returns a permutation of the whole store, and reading an
id returns that row, or 404 exactly when the id is absent. -/
theorem user_reads_unrestricted (store : UserStore) (p q : Principal)
    (id : Nat) :
    getAllUsers store p = getAllUsers store q
  ∧ getUserById store p id = getUserById store q id
  ∧ (∃ l, getAllUsers store p = .ok 200 l ∧ l.Perm store)
  ∧ (∀ u, findByPk store id = some u → getUserById store p id = .ok 200 u)
  ∧ (findByPk store id = none →
      getUserById store p id = .err 404 "User not found") := by
  refine ⟨rfl, rfl, ?_, ?_, ?_⟩
  · exact ⟨_, rfl, List.mergeSort_perm store _⟩
  · intro u hu
    simp [getUserById, hu]
  · intro hnone
    simp [getUserById, hnone]

/-- C10 — witness: a user-role principal and an admin-role principal get
identical replies on both reads; id 2 resolves to user 2 for the
non-admin, and id 9 yields 404. -/
theorem user_reads_unrestricted_witness :
    getAllUsers
      [{ id := 1, name := "Adm", email := "adm@x.com", role := Role.admin },
       { id := 2, name := "B", email := "b@x.com", role := Role.user }]
      { userId := 2, id := 2, email := "b@x.com", role := Role.user }
    = getAllUsers
      [{ id := 1, name := "Adm", email := "adm@x.com", role := Role.admin },
       { id := 2, name := "B", email := "b@x.com", role := Role.user }]
      { userId := 1, id := 1, email := "adm@x.com", role := Role.admin }
  ∧ getUserById
      [{ id := 1, name := "Adm", email := "adm@x.com", role := Role.admin },
       { id := 2, name := "B", email := "b@x.com", role := Role.user }]
      { userId := 2, id := 2, email := "b@x.com", role := Role.user } 1
    = getUserById
      [{ id := 1, name := "Adm", email := "adm@x.com", role := Role.admin },
       { id := 2, name := "B", email := "b@x.com", role := Role.user }]
      { userId := 1, id := 1, email := "adm@x.com", role := Role.admin } 1
  ∧ getUserById
      [{ id := 1, name := "Adm", email := "adm@x.com", role := Role.admin },
       { id := 2, name := "B", email := "b@x.com", role := Role.user }]
      { userId := 2, id := 2, email := "b@x.com", role := Role.user } 2
    = .ok 200 { id := 2, name := "B", email := "b@x.com", role := Role.user }
  ∧ getUserById
      [{ id := 1, name := "Adm", email := "adm@x.com", role := Role.admin },
       { id := 2, name := "B", email := "b@x.com", role := Role.user }]
      { userId := 2, id := 2, email := "b@x.com", role := Role.user } 9
    = .err 404 "User not found" := by
  have h1 := user_reads_unrestricted
    [{ id := 1, name := "Adm", email := "adm@x.com", role := Role.admin },
     { id := 2, name := "B", email := "b@x.com", role := Role.user }]
    { userId := 2, id := 2, email := "b@x.com", role := Role.user }
    { userId := 1, id := 1, email := "adm@x.com", role := Role.admin } 1
  have h2 := user_reads_unrestricted
    [{ id := 1, name := "Adm", email := "adm@x.com", role := Role.admin },
     { id := 2, name := "B", email := "b@x.com", role := Role.user }]
    { userId := 2, id := 2, email := "b@x.com", role := Role.user }
    { userId := 1, id := 1, email := "adm@x.com", role := Role.admin } 2
  have h9 := user_reads_unrestricted
    [{ id := 1, name := "Adm", email := "adm@x.com", role := Role.admin },
     { id := 2, name := "B", email := "b@x.com", role := Role.user }]
    { userId := 2, id := 2, email := "b@x.com", role := Role.user }
    { userId := 1, id := 1, email := "adm@x.com", role := Role.admin } 9
  exact ⟨h1.1, h1.2.1,
    h2.2.2.2.1 { id := 2, name := "B", email := "b@x.com", role := Role.user }
      (by decide),
    h9.2.2.2.2 (by decide)⟩

end ApiStarter
